import Mathlib

/-!
Shallow embedding of `ramlfications/validate.py` (validator registry of the
RAML validation engine).

Modelling conventions:
* Python's error records (`InvalidRootNodeError`, `InvalidResourceNodeError`,
  `InvalidParameterError`) become the constructors of `ErrorRecord`.
* Each validator `f(inst, attr, value)` is embedded as a function from the
  node fields and value it actually reads to the list of records that the
  invocation appends to `inst.errors` (always zero or one records).  Appending
  to the shared collector is made explicit by `runValidator`.
* Validators that can raise a Python exception (membership test on `None`,
  indexing an empty key list, subscripting a `dict_keys` view under
  Python 3) return `Except PyError (List ErrorRecord)`; on every raising path
  of the source the exception fires before any `append`, so the error branch
  carries no records.
* Python truthiness of optional strings is `pyTruthy`; `x is None` tests are
  `Option.isNone`.
-/

/-- Python exceptions that the embedded validators can raise. -/
inductive PyError where
  | typeError
  | indexError
deriving DecidableEq, Repr

/-- Error records appended by validators, mirroring `ramlfications.errors`:
`InvalidParameterError` carries the context tag ("header", "body",
"response", "BaseParameter"). -/
inductive ErrorRecord where
  | InvalidRootNodeError (message : String)
  | InvalidResourceNodeError (message : String)
  | InvalidParameterError (message : String) (parameter : String)
deriving DecidableEq, Repr

/-- Truthiness of an optional Python string: `None` and `""` are falsy. -/
def pyTruthy : Option String → Bool
  | none => false
  | some s => !s.isEmpty

/-- `leadsWith p l` : `p` is a prefix of `l` (on characters). -/
def leadsWith : List Char → List Char → Bool
  | [], _ => true
  | _ :: _, [] => false
  | p :: ps, c :: cs => p == c && leadsWith ps cs

/-- `hasSubstrChars needle hay` : `needle` occurs contiguously in `hay`. -/
def hasSubstrChars (needle : List Char) : List Char → Bool
  | [] => needle.isEmpty
  | c :: rest => leadsWith needle (c :: rest) || hasSubstrChars needle rest

/-- `needle in hay` substring test on Python strings. -/
def hasSubstr (hay needle : String) : Bool :=
  hasSubstrChars needle.data hay.data

/-- Applies the outcome of one validator invocation to the shared error
collector `inst.errors`: a normal return appends the emitted records, a
raised exception leaves the collector untouched (the raise happens before
any append in every raising validator). -/
def runValidator (r : Except PyError (List ErrorRecord)) (errors : List ErrorRecord) :
    List ErrorRecord :=
  match r with
  | .ok t => errors ++ t
  | .error _ => errors

/-- `root_version`: requires an API version.  `base_uri` is
`inst.raml_obj.get("baseUri")` (`none` when the raw document has no baseUri
entry); `value` is the version field.  When `value` is falsy the source
evaluates `"{version}" in base_uri`, which raises `TypeError` if `base_uri`
is `None`. -/
def root_version (base_uri : Option String) (value : Option String) :
    Except PyError (List ErrorRecord) :=
  if !pyTruthy value then
    match base_uri with
    | none => .error .typeError
    | some b =>
      if hasSubstr b "{version}" then
        .ok [.InvalidRootNodeError
          "RAML File's baseUri includes {version} parameter but no version is defined."]
      else
        .ok [.InvalidRootNodeError "RAML File does not define an API version."]
  else .ok []

/-- `root_base_uri`: requires a base URI. -/
def root_base_uri (value : Option String) : List ErrorRecord :=
  if !pyTruthy value then
    [.InvalidRootNodeError "RAML File does not define the baseUri."]
  else []

/-- A base/regular URI parameter as consulted by the root validators:
only `name` and the truthiness of `default` are read. -/
structure UriParameter where
  name : String
  default : Option String
deriving DecidableEq, Repr

/-- `root_base_uri_params`: requires every base URI parameter to have a
`default` set; the source appends one record for the first offender and
returns, leaving the remaining parameters unchecked. -/
def root_base_uri_params : List UriParameter → List ErrorRecord
  | [] => []
  | v :: rest =>
    if !pyTruthy v.default then
      [.InvalidRootNodeError
        ("The 'default' parameter is not set for base URI parameter '" ++ v.name ++ "'")]
    else root_base_uri_params rest

/-- `root_uri_params`: no regular URI parameter may be named "version";
first offender wins, then the source returns. -/
def root_uri_params : List UriParameter → List ErrorRecord
  | [] => []
  | v :: rest =>
    if v.name == "version" then
      [.InvalidRootNodeError "'version' can only be defined in baseUriParameters."]
    else root_uri_params rest

/-- `root_protocols`: every protocol, uppercased, must be in the config's
`protocols` whitelist.  `config` is `inst.config.get("protocols")`; when the
category is missing (`none`) the membership test raises `TypeError`. -/
def root_protocols (config : Option (List String)) :
    List String → Except PyError (List ErrorRecord)
  | [] => .ok []
  | p :: rest =>
    match config with
    | none => .error .typeError
    | some ps =>
      if !ps.contains p.toUpper then
        .ok [.InvalidRootNodeError ("'" ++ p ++ "' not a valid protocol for a RAML-defined API.")]
      else root_protocols (some ps) rest

/-- `root_title`: requires a title. -/
def root_title (value : Option String) : List ErrorRecord :=
  if !pyTruthy value then
    [.InvalidRootNodeError "RAML File does not define an API title."]
  else []

/-- One documentation entry: the source reads `d.title.raw` and
`d.content.raw` and compares them with `is None`. -/
structure Documentation where
  title_raw : Option String
  content_raw : Option String
deriving DecidableEq, Repr

/-- `root_docs`: each documentation entry needs a title and content;
the first offending entry appends one record and the source returns. -/
def root_docs : List Documentation → List ErrorRecord
  | [] => []
  | d :: rest =>
    if d.title_raw.isNone then
      [.InvalidRootNodeError "API Documentation requires a title."]
    else if d.content_raw.isNone then
      [.InvalidRootNodeError "API Documentation requires content defined."]
    else root_docs rest

/-- `root_schemas`: explicitly unimplemented (`pass`). -/
def root_schemas : List ErrorRecord := []

/-- Character class `[A-Za-z.-0-1]` of the source's MIME regex: note the
range `.-0` covers the three characters `.`, `/`, `0`, and `-` and `1` are
then literals. -/
def mime_class_char (c : Char) : Bool :=
  ('A' ≤ c && c ≤ 'Z') || ('a' ≤ c && c ≤ 'z') || ('.' ≤ c && c ≤ '0') ||
    c == '-' || c == '1'

/-- Matcher for the regex tail `[A-Za-z.-0-1]*?(json|xml)` at the current
position: either the literal alternation matches here, or one class
character is consumed (laziness does not affect match existence). -/
def mime_tail : List Char → Bool
  | [] => false
  | c :: rest =>
    leadsWith ['j', 's', 'o', 'n'] (c :: rest) ||
    leadsWith ['x', 'm', 'l'] (c :: rest) ||
    (mime_class_char c && mime_tail rest)

/-- `re.search` of `application\/[A-Za-z.-0-1]*?(json|xml)`: tries the
pattern at every start position. -/
def mime_search : List Char → Bool
  | [] => false
  | c :: rest =>
    (leadsWith "application/".data (c :: rest) && mime_tail (List.drop 12 (c :: rest))) ||
    mime_search rest

/-- `validate_mime_type`: whether the MIME regex finds a match in `value`
(the source returns the match object; only its truthiness is consumed). -/
def validate_mime_type (value : String) : Bool :=
  mime_search value.data

/-- `root_media_type`: a truthy media type must be in the config's
`media_types` whitelist or be recognized by `validate_mime_type`.  The
membership test runs first and raises `TypeError` when the config category
is missing. -/
def root_media_type (config : Option (List String)) (value : Option String) :
    Except PyError (List ErrorRecord) :=
  match value with
  | none => .ok []
  | some s =>
    if s.isEmpty then .ok []
    else
      match config with
      | none => .error .typeError
      | some ms =>
        if !ms.contains s && !validate_mime_type s then
          .ok [.InvalidRootNodeError ("Unsupported MIME Media Type: '" ++ s ++ "'.")]
        else .ok []

/-- `root_resources`: the API must define resources; only the truthiness of
the value is read. -/
def root_resources (value : Bool) : List ErrorRecord :=
  if !value then [.InvalidRootNodeError "API does not define any resources."]
  else []

/-- `root_secured_by`: explicitly unimplemented (`pass`). -/
def root_secured_by : List ErrorRecord := []

/-- One element of a resource's assigned-traits list: a bare trait name
(Python `str`), a parameterized reference (Python `dict`, modelled by its
key list; its values are never consulted by the validator before it
raises), or any other value, carried as its display representation for the
error message. -/
inductive TraitRef where
  | str (s : String)
  | dict (keys : List String)
  | other (rep : String)
deriving DecidableEq, Repr

/-- `list(iterkeys(d))[0]`: the first key of a dict, raising `IndexError`
on an empty dict. -/
def firstKey : List String → Except PyError String
  | [] => .error .indexError
  | k :: _ => .ok k

/-- The `trait_names` comprehension: first key of each dict in the root's
trait collection. -/
def traitNames (traits : List (List String)) : Except PyError (List String) :=
  traits.mapM firstKey

/-- Display form of a parameterized trait reference for the error message;
the source interpolates the Python repr of the dict (whose values our
embedding does not model), so the keys stand in for it. -/
def reprTraitDict (keys : List String) : String :=
  String.intercalate ", " keys

/-- The `for v in value` loop of `assigned_traits`.  For a dict entry,
`list(iterkeys(v))[0]` raises `IndexError` on an empty dict; when the first
key resolves to a declared trait name, the source then evaluates
`v.keys()[0]`, and under Python 3 `dict.keys()` is a view whose
subscripting raises `TypeError`, so the `isinstance(..., str)` check on
line 158 is never reached. -/
def assigned_traits_loop (trait_names : List String) (path : String) :
    List TraitRef → Except PyError (List ErrorRecord)
  | [] => .ok []
  | v :: rest =>
    match v with
    | .dict [] => .error .indexError
    | .dict (k :: ks) =>
      if !trait_names.contains k then
        .ok [.InvalidResourceNodeError
          ("Trait '" ++ reprTraitDict (k :: ks) ++ "' is assigned to '" ++ path ++
            "' but is not defined in the root of the API.")]
      else .error .typeError
    | .str s =>
      if !trait_names.contains s then
        .ok [.InvalidResourceNodeError
          ("Trait '" ++ s ++ "' is assigned to '" ++ path ++
            "' but is not defined in the root of the API.")]
      else assigned_traits_loop trait_names path rest
    | .other rep =>
      .ok [.InvalidResourceNodeError
        ("'" ++ rep ++ "' needs to be a string referring to a trait, or a " ++
          "dictionary mapping parameter values to a trait")]

/-- `assigned_traits`: assigned traits must be declared in the RAML root.
`root_traits` is `inst.root.raw.get("traits", {})` seen as the list of
trait dicts (each given by its key list); `none` models an absent entry,
defaulting to the falsy `{}`.  `value` is the resource's assigned list
(the source's `isinstance(value, list)` branch; an empty list is falsy). -/
def assigned_traits (root_traits : Option (List (List String))) (path : String)
    (value : List TraitRef) : Except PyError (List ErrorRecord) :=
  if value.isEmpty then .ok []
  else if (root_traits.getD []).isEmpty then
    .ok [.InvalidResourceNodeError
      "Trying to assign traits that are not definedin the root of the API."]
  else
    match traitNames (root_traits.getD []) with
    | .error e => .error e
    | .ok names => assigned_traits_loop names path value

/-- A value assigned as resource type: a bare name, a list, or a dict
(modelled by its key list). -/
inductive ResTypeVal where
  | vstr (s : String)
  | vlist (items : List String)
  | vdict (keys : List String)
deriving DecidableEq, Repr

/-- Python truthiness of a `ResTypeVal`. -/
def resTypeTruthy : ResTypeVal → Bool
  | .vstr s => !s.isEmpty
  | .vlist l => !l.isEmpty
  | .vdict l => !l.isEmpty

/-- `isinstance(value, (dict, list)) and len(value) > 1`. -/
def resTypeTooMany : ResTypeVal → Bool
  | .vstr _ => false
  | .vlist l => decide (1 < l.length)
  | .vdict l => decide (1 < l.length)

/-- Display form of a resource-type value for the error message (the source
interpolates `str(value)`; list and dict values are shown by their
modelled elements). -/
def reprResTypeVal : ResTypeVal → String
  | .vstr s => s
  | .vlist l => "[" ++ String.intercalate ", " l ++ "]"
  | .vdict keys => String.intercalate ", " keys

/-- The `item` selection of `assigned_res_type`: `value[0]` for a list, the
first key for a dict, the value itself otherwise.  The empty-list and
empty-dict branches mirror the `IndexError` subscripting would raise; they
are unreachable from `assigned_res_type` because an empty value is falsy. -/
def resTypeItem : ResTypeVal → Except PyError String
  | .vstr s => .ok s
  | .vlist [] => .error .indexError
  | .vlist (i :: _) => .ok i
  | .vdict [] => .error .indexError
  | .vdict (k :: _) => .ok k

/-- `assigned_res_type`: at most one resource type may be assigned, and it
must be declared in the root's `resourceTypes` collection (whose names are
the first keys of its dicts, raising `IndexError` on an empty dict). -/
def assigned_res_type (root_res_types : Option (List (List String)))
    (display_name : String) (value : Option ResTypeVal) :
    Except PyError (List ErrorRecord) :=
  match value with
  | none => .ok []
  | some v =>
    if !resTypeTruthy v then .ok []
    else if resTypeTooMany v then
      .ok [.InvalidResourceNodeError
        ("Too many resource types applied to '" ++ display_name ++ "'.")]
    else
      match (root_res_types.getD []).mapM firstKey with
      | .error e => .error e
      | .ok names =>
        match resTypeItem v with
        | .error e => .error e
        | .ok item =>
          if !names.contains item then
            .ok [.InvalidResourceNodeError
              ("Resource Type '" ++ reprResTypeVal v ++ "' is assigned to '" ++
                display_name ++ "' but is not defined in the root of the API.")]
          else .ok []

/-- `header_type`: a truthy header type must be one of the config's
`prim_types`; a missing config category makes the membership test raise. -/
def header_type (config : Option (List String)) (value : Option String) :
    Except PyError (List ErrorRecord) :=
  match value with
  | none => .ok []
  | some s =>
    if s.isEmpty then .ok []
    else
      match config with
      | none => .error .typeError
      | some ps =>
        if !ps.contains s then
          .ok [.InvalidParameterError
            ("'" ++ s ++ "' is not a valid primative parameter type") "header"]
        else .ok []

/-- `body_mime_type`: like `root_media_type` but reported as a parameter
error with context "body". -/
def body_mime_type (config : Option (List String)) (value : Option String) :
    Except PyError (List ErrorRecord) :=
  match value with
  | none => .ok []
  | some s =>
    if s.isEmpty then .ok []
    else
      match config with
      | none => .error .typeError
      | some ms =>
        if !ms.contains s && !validate_mime_type s then
          .ok [.InvalidParameterError ("Unsupported MIME Media Type: '" ++ s ++ "'.") "body"]
        else .ok []

/-- The form-encoded MIME types of the body validators. -/
def form_types : List String :=
  ["multipart/form-data", "application/x-www-form-urlencoded"]

/-- `body_schema`: no `schema` may be set when the body's MIME type is
form-encoded; `value` is the truthiness of the schema field. -/
def body_schema (mime_type : String) (value : Bool) : List ErrorRecord :=
  if form_types.contains mime_type && value then
    [.InvalidParameterError "Body must define formParameters, not schema/example." "body"]
  else []

/-- `body_example`: no `example` may be set when the body's MIME type is
form-encoded. -/
def body_example (mime_type : String) (value : Bool) : List ErrorRecord :=
  if form_types.contains mime_type && value then
    [.InvalidParameterError "Body must define formParameters, not schema/example." "body"]
  else []

/-- `body_form`: `formParameters` must be set (truthy) when the body's MIME
type is form-encoded. -/
def body_form (mime_type : String) (value : Bool) : List ErrorRecord :=
  if form_types.contains mime_type && !value then
    [.InvalidParameterError
      ("Body with mime_type '" ++ mime_type ++ "' requires formParameters.") "body"]
  else []

/-- A dynamically typed value as seen by `response_code`. -/
inductive PyVal where
  | int (n : Int)
  | str (s : String)
  | pynone
deriving DecidableEq, Repr

/-- `str(value)` as interpolated into error messages. -/
def strPyVal : PyVal → String
  | .int n => toString n
  | .str s => s
  | .pynone => "None"

/-- `isinstance(value, int)`. -/
def isInt : PyVal → Bool
  | .int _ => true
  | _ => false

/-- `response_code`: the value must be an integer in the config's
`resp_codes` whitelist; for an integer value with the config category
missing, the membership test raises. -/
def response_code (config : Option (List Int)) (value : PyVal) :
    Except PyError (List ErrorRecord) :=
  match value with
  | .int n =>
    match config with
    | none => .error .typeError
    | some codes =>
      if !codes.contains n then
        .ok [.InvalidParameterError
          ("'" ++ toString n ++ "' not a valid HTTP response code.") "response"]
      else .ok []
  | v =>
    .ok [.InvalidParameterError
      ("Response code '" ++ strPyVal v ++ "' must be an integer representing an HTTP code.")
      "response"]

/-- `integer_number_type_parameter`: a numeric-only attribute (`value is
not None`) requires the parameter's type to be "integer" or "number". -/
def integer_number_type_parameter (ptype pname attr_name : String)
    (value : Option PyVal) : List ErrorRecord :=
  match value with
  | none => []
  | some _ =>
    if !(["integer", "number"].contains ptype) then
      [.InvalidParameterError
        (pname ++ " must be either a number or integer to have " ++ attr_name ++
          " attribute set, not '" ++ ptype ++ "'.") "BaseParameter"]
    else []

/-- `string_type_parameter`: a truthy string-only attribute requires the
parameter's type to be "string". -/
def string_type_parameter (ptype pname attr_name : String)
    (value : Option String) : List ErrorRecord :=
  if pyTruthy value then
    if ptype != "string" then
      [.InvalidParameterError
        (pname ++ " must be a string type to have " ++ attr_name ++
          " attribute set, not '" ++ ptype ++ "'.") "BaseParameter"]
    else []
  else []

/-- The validator registry: one constructor per validator defined in
`validate.py`, carrying the node fields and candidate value that validator
reads. -/
inductive ValidatorCall where
  | root_version (base_uri : Option String) (value : Option String)
  | root_base_uri (value : Option String)
  | root_base_uri_params (value : List UriParameter)
  | root_uri_params (value : List UriParameter)
  | root_protocols (config : Option (List String)) (value : List String)
  | root_title (value : Option String)
  | root_docs (value : List Documentation)
  | root_schemas
  | root_media_type (config : Option (List String)) (value : Option String)
  | root_resources (value : Bool)
  | root_secured_by
  | assigned_traits (root_traits : Option (List (List String))) (path : String)
      (value : List TraitRef)
  | assigned_res_type (root_res_types : Option (List (List String)))
      (display_name : String) (value : Option ResTypeVal)
  | header_type (config : Option (List String)) (value : Option String)
  | body_mime_type (config : Option (List String)) (value : Option String)
  | body_schema (mime_type : String) (value : Bool)
  | body_example (mime_type : String) (value : Bool)
  | body_form (mime_type : String) (value : Bool)
  | response_code (config : Option (List Int)) (value : PyVal)
  | integer_number_type_parameter (ptype pname attr_name : String) (value : Option PyVal)
  | string_type_parameter (ptype pname attr_name : String) (value : Option String)

/-- Dispatches a registry entry to its validator, yielding the records the
invocation appends, or the exception it raises. -/
def invoke : ValidatorCall → Except PyError (List ErrorRecord)
  | .root_version base_uri value => root_version base_uri value
  | .root_base_uri value => .ok (root_base_uri value)
  | .root_base_uri_params value => .ok (root_base_uri_params value)
  | .root_uri_params value => .ok (root_uri_params value)
  | .root_protocols config value => root_protocols config value
  | .root_title value => .ok (root_title value)
  | .root_docs value => .ok (root_docs value)
  | .root_schemas => .ok root_schemas
  | .root_media_type config value => root_media_type config value
  | .root_resources value => .ok (root_resources value)
  | .root_secured_by => .ok root_secured_by
  | .assigned_traits root_traits path value => assigned_traits root_traits path value
  | .assigned_res_type root_res_types display_name value =>
      assigned_res_type root_res_types display_name value
  | .header_type config value => header_type config value
  | .body_mime_type config value => body_mime_type config value
  | .body_schema mime_type value => .ok (body_schema mime_type value)
  | .body_example mime_type value => .ok (body_example mime_type value)
  | .body_form mime_type value => .ok (body_form mime_type value)
  | .response_code config value => response_code config value
  | .integer_number_type_parameter ptype pname attr_name value =>
      .ok (integer_number_type_parameter ptype pname attr_name value)
  | .string_type_parameter ptype pname attr_name value =>
      .ok (string_type_parameter ptype pname attr_name value)

/-! ### Helper lemmas -/

theorem ok_single_len {e : ErrorRecord} {t : List ErrorRecord}
    (h : (Except.ok [e] : Except PyError (List ErrorRecord)) = Except.ok t) :
    t.length ≤ 1 := by
  injection h with h
  subst h
  simp

theorem ok_nil_len {t : List ErrorRecord}
    (h : (Except.ok [] : Except PyError (List ErrorRecord)) = Except.ok t) :
    t.length ≤ 1 := by
  injection h with h
  subst h
  simp

theorem root_version_emits_le (b v : Option String) (t : List ErrorRecord)
    (h : root_version b v = Except.ok t) : t.length ≤ 1 := by
  unfold root_version at h
  repeat' split at h
  all_goals first
    | exact ok_nil_len h
    | exact ok_single_len h
    | exact Except.noConfusion h

theorem root_base_uri_len (v : Option String) : (root_base_uri v).length ≤ 1 := by
  unfold root_base_uri
  split <;> simp

theorem root_base_uri_params_len (l : List UriParameter) :
    (root_base_uri_params l).length ≤ 1 := by
  induction l with
  | nil => simp [root_base_uri_params]
  | cons v rest ih =>
    unfold root_base_uri_params
    split
    · simp
    · exact ih

theorem root_uri_params_len (l : List UriParameter) :
    (root_uri_params l).length ≤ 1 := by
  induction l with
  | nil => simp [root_uri_params]
  | cons v rest ih =>
    unfold root_uri_params
    split
    · simp
    · exact ih

theorem root_protocols_emits_le (cfg : Option (List String)) (l : List String)
    (t : List ErrorRecord) (h : root_protocols cfg l = Except.ok t) :
    t.length ≤ 1 := by
  induction l generalizing t with
  | nil => simp only [root_protocols] at h; exact ok_nil_len h
  | cons p rest ih =>
    cases cfg with
    | none =>
      simp only [root_protocols] at h
      exact Except.noConfusion h
    | some ps =>
      simp only [root_protocols] at h
      split at h
      · exact ok_single_len h
      · exact ih t h

theorem root_title_len (v : Option String) : (root_title v).length ≤ 1 := by
  unfold root_title
  split <;> simp

theorem root_docs_len (l : List Documentation) : (root_docs l).length ≤ 1 := by
  induction l with
  | nil => simp [root_docs]
  | cons d rest ih =>
    unfold root_docs
    split
    · simp
    · split
      · simp
      · exact ih

theorem root_media_type_emits_le (cfg : Option (List String)) (v : Option String)
    (t : List ErrorRecord) (h : root_media_type cfg v = Except.ok t) :
    t.length ≤ 1 := by
  unfold root_media_type at h
  repeat' split at h
  all_goals first
    | exact ok_nil_len h
    | exact ok_single_len h
    | exact Except.noConfusion h

theorem root_resources_len (v : Bool) : (root_resources v).length ≤ 1 := by
  unfold root_resources
  split <;> simp

theorem assigned_traits_loop_emits_le (names : List String) (path : String)
    (l : List TraitRef) (t : List ErrorRecord)
    (h : assigned_traits_loop names path l = Except.ok t) : t.length ≤ 1 := by
  induction l generalizing t with
  | nil => unfold assigned_traits_loop at h; exact ok_nil_len h
  | cons v rest ih =>
    cases v with
    | dict keys =>
      cases keys with
      | nil =>
        simp only [assigned_traits_loop] at h
        exact Except.noConfusion h
      | cons k ks =>
        simp only [assigned_traits_loop] at h
        split at h
        · exact ok_single_len h
        · exact Except.noConfusion h
    | str s =>
      simp only [assigned_traits_loop] at h
      split at h
      · exact ok_single_len h
      · exact ih t h
    | other rep =>
      simp only [assigned_traits_loop] at h
      exact ok_single_len h

theorem assigned_traits_emits_le (root_traits : Option (List (List String)))
    (path : String) (value : List TraitRef) (t : List ErrorRecord)
    (h : assigned_traits root_traits path value = Except.ok t) : t.length ≤ 1 := by
  unfold assigned_traits at h
  repeat' split at h
  all_goals first
    | exact ok_nil_len h
    | exact ok_single_len h
    | exact Except.noConfusion h
    | exact assigned_traits_loop_emits_le _ path value t h

theorem assigned_res_type_emits_le (rts : Option (List (List String)))
    (dn : String) (value : Option ResTypeVal) (t : List ErrorRecord)
    (h : assigned_res_type rts dn value = Except.ok t) : t.length ≤ 1 := by
  unfold assigned_res_type at h
  repeat' split at h
  all_goals first
    | exact ok_nil_len h
    | exact ok_single_len h
    | exact Except.noConfusion h

theorem header_type_emits_le (cfg : Option (List String)) (v : Option String)
    (t : List ErrorRecord) (h : header_type cfg v = Except.ok t) : t.length ≤ 1 := by
  unfold header_type at h
  repeat' split at h
  all_goals first
    | exact ok_nil_len h
    | exact ok_single_len h
    | exact Except.noConfusion h

theorem body_mime_type_emits_le (cfg : Option (List String)) (v : Option String)
    (t : List ErrorRecord) (h : body_mime_type cfg v = Except.ok t) : t.length ≤ 1 := by
  unfold body_mime_type at h
  repeat' split at h
  all_goals first
    | exact ok_nil_len h
    | exact ok_single_len h
    | exact Except.noConfusion h

theorem body_schema_len (mt : String) (v : Bool) : (body_schema mt v).length ≤ 1 := by
  unfold body_schema
  split <;> simp

theorem body_example_len (mt : String) (v : Bool) : (body_example mt v).length ≤ 1 := by
  unfold body_example
  split <;> simp

theorem body_form_len (mt : String) (v : Bool) : (body_form mt v).length ≤ 1 := by
  unfold body_form
  split <;> simp

theorem response_code_emits_le (cfg : Option (List Int)) (v : PyVal)
    (t : List ErrorRecord) (h : response_code cfg v = Except.ok t) : t.length ≤ 1 := by
  unfold response_code at h
  repeat' split at h
  all_goals first
    | exact ok_nil_len h
    | exact ok_single_len h
    | exact Except.noConfusion h

theorem integer_number_type_parameter_len (pt pn an : String) (v : Option PyVal) :
    (integer_number_type_parameter pt pn an v).length ≤ 1 := by
  cases v with
  | none => simp [integer_number_type_parameter]
  | some x =>
    simp only [integer_number_type_parameter]
    split <;> simp

theorem string_type_parameter_len (pt pn an : String) (v : Option String) :
    (string_type_parameter pt pn an v).length ≤ 1 := by
  unfold string_type_parameter
  repeat' split
  all_goals simp

theorem invoke_emits_le_one (c : ValidatorCall) (t : List ErrorRecord)
    (h : invoke c = Except.ok t) : t.length ≤ 1 := by
  cases c with
  | root_version b v => exact root_version_emits_le b v t h
  | root_base_uri v =>
    simp only [invoke] at h
    injection h with h
    subst h
    exact root_base_uri_len v
  | root_base_uri_params v =>
    simp only [invoke] at h
    injection h with h
    subst h
    exact root_base_uri_params_len v
  | root_uri_params v =>
    simp only [invoke] at h
    injection h with h
    subst h
    exact root_uri_params_len v
  | root_protocols cfg v => exact root_protocols_emits_le cfg v t h
  | root_title v =>
    simp only [invoke] at h
    injection h with h
    subst h
    exact root_title_len v
  | root_docs v =>
    simp only [invoke] at h
    injection h with h
    subst h
    exact root_docs_len v
  | root_schemas =>
    simp only [invoke, root_schemas] at h
    injection h with h
    subst h
    simp
  | root_media_type cfg v => exact root_media_type_emits_le cfg v t h
  | root_resources v =>
    simp only [invoke] at h
    injection h with h
    subst h
    exact root_resources_len v
  | root_secured_by =>
    simp only [invoke, root_secured_by] at h
    injection h with h
    subst h
    simp
  | assigned_traits rt p v => exact assigned_traits_emits_le rt p v t h
  | assigned_res_type rts dn v => exact assigned_res_type_emits_le rts dn v t h
  | header_type cfg v => exact header_type_emits_le cfg v t h
  | body_mime_type cfg v => exact body_mime_type_emits_le cfg v t h
  | body_schema mt v =>
    simp only [invoke] at h
    injection h with h
    subst h
    exact body_schema_len mt v
  | body_example mt v =>
    simp only [invoke] at h
    injection h with h
    subst h
    exact body_example_len mt v
  | body_form mt v =>
    simp only [invoke] at h
    injection h with h
    subst h
    exact body_form_len mt v
  | response_code cfg v => exact response_code_emits_le cfg v t h
  | integer_number_type_parameter pt pn an v =>
    simp only [invoke] at h
    injection h with h
    subst h
    exact integer_number_type_parameter_len pt pn an v
  | string_type_parameter pt pn an v =>
    simp only [invoke] at h
    injection h with h
    subst h
    exact string_type_parameter_len pt pn an v

theorem leadsWith_append (n l l' : List Char) (h : leadsWith n l = true) :
    leadsWith n (l ++ l') = true := by
  induction n generalizing l with
  | nil => simp [leadsWith]
  | cons p ps ih =>
    cases l with
    | nil => exact absurd h (by simp [leadsWith])
    | cons c cs =>
      simp only [List.cons_append, leadsWith, Bool.and_eq_true] at h ⊢
      exact ⟨h.1, ih cs h.2⟩

theorem hasSubstrChars_nil_true (l : List Char) : hasSubstrChars [] l = true := by
  cases l <;> simp [hasSubstrChars, leadsWith]

theorem hasSubstrChars_append (n l l' : List Char)
    (h : hasSubstrChars n l = true) : hasSubstrChars n (l ++ l') = true := by
  induction l with
  | nil =>
    cases n with
    | nil => simpa using hasSubstrChars_nil_true l'
    | cons a as => simp [hasSubstrChars] at h
  | cons c cs ih =>
    simp only [hasSubstrChars, Bool.or_eq_true] at h
    rcases h with h | h
    · simp only [List.cons_append, hasSubstrChars, Bool.or_eq_true]
      exact Or.inl (leadsWith_append n (c :: cs) l' h)
    · simp only [List.cons_append, hasSubstrChars, Bool.or_eq_true]
      exact Or.inr (ih h)

/-! ### Claims -/

/-- Claim C1: for a root node whose raw baseUri contains the "{version}"
placeholder and whose version is unset (falsy), `root_version` appends
exactly one root error with the template-present-but-version-missing
message; with the placeholder absent and version unset it appends exactly
one root error with the no-version-defined message; and with a non-empty
version it appends no error, for any baseUri. -/
theorem C1_root_version_matrix (b : String) (v : Option String) :
    (pyTruthy v = false → hasSubstr b "{version}" = true →
      root_version (some b) v = Except.ok [ErrorRecord.InvalidRootNodeError
        "RAML File's baseUri includes {version} parameter but no version is defined."]) ∧
    (pyTruthy v = false → hasSubstr b "{version}" = false →
      root_version (some b) v = Except.ok [ErrorRecord.InvalidRootNodeError
        "RAML File does not define an API version."]) ∧
    (∀ bu : Option String, pyTruthy v = true → root_version bu v = Except.ok []) := by
  refine ⟨fun h1 h2 => ?_, fun h1 h2 => ?_, fun bu h1 => ?_⟩
  · simp [root_version, h1, h2]
  · simp [root_version, h1, h2]
  · simp [root_version, h1]

/-- Witness for C1 at concrete inputs. -/
theorem C1_root_version_matrix_witness :
    root_version (some "http://api.foo.com/{version}") none =
      Except.ok [ErrorRecord.InvalidRootNodeError
        "RAML File's baseUri includes {version} parameter but no version is defined."] ∧
    root_version (some "http://api.foo.com/v1") none =
      Except.ok [ErrorRecord.InvalidRootNodeError
        "RAML File does not define an API version."] ∧
    root_version (some "http://api.foo.com/{version}") (some "v1") = Except.ok [] :=
  ⟨(C1_root_version_matrix "http://api.foo.com/{version}" none).1 rfl (by decide),
   (C1_root_version_matrix "http://api.foo.com/v1" none).2.1 rfl (by decide),
   (C1_root_version_matrix "http://api.foo.com/v1" (some "v1")).2.2
     (some "http://api.foo.com/{version}") rfl⟩

/-- Claim C2: when the raw document has no baseUri entry (`none`) and the
version is unset, `root_version` appends no record and raises `TypeError`
(the substring test on `None`), so validation aborts: the collector is
left unchanged. -/
theorem C2_root_version_none_base_raises (v : Option String)
    (h : pyTruthy v = false) :
    root_version none v = Except.error PyError.typeError ∧
    (∀ errors : List ErrorRecord, runValidator (root_version none v) errors = errors) := by
  constructor
  · simp [root_version, h]
  · intro errors
    simp [runValidator, root_version, h]

/-- Witness for C2 at a concrete input. -/
theorem C2_root_version_none_base_raises_witness :
    root_version none none = Except.error PyError.typeError ∧
    runValidator (root_version none none) [] = [] :=
  ⟨(C2_root_version_none_base_raises none rfl).1,
   (C2_root_version_none_base_raises none rfl).2 []⟩

/-- Claim C3: with the `resp_codes` whitelist present, `response_code`
appends exactly one ParameterError with context "response" for a non-integer
value, exactly one for an integer outside the whitelist, and none for an
integer in the whitelist. -/
theorem C3_response_code_rules (codes : List Int) (n : Int) (v : PyVal) :
    (isInt v = false → response_code (some codes) v =
      Except.ok [ErrorRecord.InvalidParameterError
        ("Response code '" ++ strPyVal v ++ "' must be an integer representing an HTTP code.")
        "response"]) ∧
    (codes.contains n = false → response_code (some codes) (.int n) =
      Except.ok [ErrorRecord.InvalidParameterError
        ("'" ++ toString n ++ "' not a valid HTTP response code.") "response"]) ∧
    (codes.contains n = true → response_code (some codes) (.int n) = Except.ok []) := by
  refine ⟨fun h => ?_, fun h => ?_, fun h => ?_⟩
  · cases v with
    | int m => simp [isInt] at h
    | str s => simp [response_code, strPyVal]
    | pynone => simp [response_code, strPyVal]
  · have h' : n ∉ codes := by simpa using h
    simp [response_code, h']
  · have h' : n ∈ codes := by simpa using h
    simp [response_code, h']

/-- Witness for C3 at concrete inputs: whitelist `[200]`, values `"OK"`,
`999` and `200`. -/
theorem C3_response_code_rules_witness :
    response_code (some [200]) (.str "OK") =
      Except.ok [ErrorRecord.InvalidParameterError
        ("Response code '" ++ strPyVal (.str "OK") ++
          "' must be an integer representing an HTTP code.") "response"] ∧
    response_code (some [200]) (.int 999) =
      Except.ok [ErrorRecord.InvalidParameterError
        ("'" ++ toString (999 : Int) ++ "' not a valid HTTP response code.") "response"] ∧
    response_code (some [200]) (.int 200) = Except.ok [] :=
  ⟨(C3_response_code_rules [200] 0 (.str "OK")).1 rfl,
   (C3_response_code_rules [200] 999 (.str "OK")).2.1 (by decide),
   (C3_response_code_rules [200] 200 (.str "OK")).2.2 (by decide)⟩

/-- Claim C4: for a body whose mimeType is form-encoded
("multipart/form-data" or "application/x-www-form-urlencoded"),
`body_form` with the value unset appends exactly one ParameterError with
context "body" and with the value set appends none, and `body_schema` with
a set value appends exactly one ParameterError with context "body". -/
theorem C4_form_body_rules (mt : String) (h : form_types.contains mt = true) :
    body_form mt false = [ErrorRecord.InvalidParameterError
      ("Body with mime_type '" ++ mt ++ "' requires formParameters.") "body"] ∧
    body_form mt true = [] ∧
    body_schema mt true = [ErrorRecord.InvalidParameterError
      "Body must define formParameters, not schema/example." "body"] := by
  have h' : mt ∈ form_types := by simpa using h
  refine ⟨?_, ?_, ?_⟩ <;> simp [body_form, body_schema, h']

/-- Witness for C4 at mimeType "multipart/form-data". -/
theorem C4_form_body_rules_witness :
    body_form "multipart/form-data" false = [ErrorRecord.InvalidParameterError
      ("Body with mime_type '" ++ "multipart/form-data" ++ "' requires formParameters.")
      "body"] ∧
    body_form "multipart/form-data" true = [] ∧
    body_schema "multipart/form-data" true = [ErrorRecord.InvalidParameterError
      "Body must define formParameters, not schema/example." "body"] :=
  C4_form_body_rules "multipart/form-data" (by decide)

/-- Claim C5: `validate_mime_type` matches "application/json" and
"application/xml" and does not match "text/plain". -/
theorem C5_validate_mime_type :
    validate_mime_type "application/json" = true ∧
    validate_mime_type "application/xml" = true ∧
    validate_mime_type "text/plain" = false := by
  refine ⟨by decide, by decide, by decide⟩

/-- Claim C6: with the root declaring exactly the trait "foo", a resource
assigning the bare name "foo" gets no error; assigning the bare name "bar"
gets exactly one ResourceError whose message contains "bar", and the
remaining list entries after the error are never checked (the result does
not depend on them). -/
theorem C6_assigned_traits_cross_reference (path : String) (rest : List TraitRef) :
    assigned_traits (some [["foo"]]) path [.str "foo"] = Except.ok [] ∧
    assigned_traits (some [["foo"]]) path (.str "bar" :: rest) =
      Except.ok [ErrorRecord.InvalidResourceNodeError
        ("Trait 'bar' is assigned to '" ++ path ++
          "' but is not defined in the root of the API.")] ∧
    hasSubstr ("Trait 'bar' is assigned to '" ++ path ++
      "' but is not defined in the root of the API.") "bar" = true := by
  refine ⟨rfl, rfl, ?_⟩
  unfold hasSubstr
  rw [String.data_append, String.data_append]
  apply hasSubstrChars_append
  apply hasSubstrChars_append
  decide

/-- Claim C7 as stated is false: `root_base_uri_params` returns after the
first defaultless parameter, so a list of two defaultless parameters
yields one record, not two. -/
theorem C7_counterexample :
    root_base_uri_params
      [UriParameter.mk "a" none, UriParameter.mk "b" none] =
      [ErrorRecord.InvalidRootNodeError
        "The 'default' parameter is not set for base URI parameter 'a'"] ∧
    (root_base_uri_params
      [UriParameter.mk "a" none, UriParameter.mk "b" none]).length ≠ 2 := by
  refine ⟨by decide, by decide⟩

/-- Claim C7, amended: validating appends exactly one RootError, naming the
first parameter that lacks a default; parameters after it are not
checked. -/
theorem C7_first_defaultless_wins (ps : List UriParameter) (v : UriParameter)
    (rest : List UriParameter) (hps : ∀ p ∈ ps, pyTruthy p.default = true)
    (hv : pyTruthy v.default = false) :
    root_base_uri_params (ps ++ v :: rest) =
      [ErrorRecord.InvalidRootNodeError
        ("The 'default' parameter is not set for base URI parameter '" ++ v.name ++ "'")] := by
  induction ps with
  | nil => simp [root_base_uri_params, hv]
  | cons p ps ih =>
    have hp : pyTruthy p.default = true := hps p (by simp)
    simp only [List.cons_append, root_base_uri_params, hp]
    simpa using ih (fun q hq => hps q (by simp [hq]))

/-- Witness for C7's amended theorem at concrete inputs. -/
theorem C7_first_defaultless_wins_witness :
    root_base_uri_params
      ([UriParameter.mk "ok" (some "d")] ++ UriParameter.mk "a" none :: [UriParameter.mk "b" none]) =
      [ErrorRecord.InvalidRootNodeError
        ("The 'default' parameter is not set for base URI parameter '" ++ "a" ++ "'")] :=
  C7_first_defaultless_wins [UriParameter.mk "ok" (some "d")] (UriParameter.mk "a" none)
    [UriParameter.mk "b" none] (by decide) rfl

/-- Claim C8: every validator in the registry, on any single invocation,
extends the error collector by zero or one records and never removes or
edits an existing one. -/
theorem C8_append_at_most_one (c : ValidatorCall) (errors : List ErrorRecord) :
    ∃ t, runValidator (invoke c) errors = errors ++ t ∧ t.length ≤ 1 := by
  cases h : invoke c with
  | ok t => exact ⟨t, by simp [runValidator, h], invoke_emits_le_one c t h⟩
  | error e => exact ⟨[], by simp [runValidator, h], by simp⟩

/-- Claim C9: a validator invocation that produces an error record, re-run
with unchanged inputs against a collector already holding that record,
appends a second, textually identical record (no deduplication). -/
theorem C9_rerun_appends_identical (c : ValidatorCall) (errors : List ErrorRecord)
    (e : ErrorRecord) (h : invoke c = Except.ok [e]) :
    runValidator (invoke c) errors = errors ++ [e] ∧
    runValidator (invoke c) (errors ++ [e]) = (errors ++ [e]) ++ [e] := by
  refine ⟨?_, ?_⟩ <;> simp [runValidator, h]

/-- Witness for C9: `root_title` on an unset title, re-run against the
collector holding its own record. -/
theorem C9_rerun_appends_identical_witness :
    runValidator (invoke (.root_title none))
      [ErrorRecord.InvalidRootNodeError "RAML File does not define an API title."] =
      [ErrorRecord.InvalidRootNodeError "RAML File does not define an API title.",
       ErrorRecord.InvalidRootNodeError "RAML File does not define an API title."] := by
  have h := (C9_rerun_appends_identical (.root_title none) []
    (ErrorRecord.InvalidRootNodeError "RAML File does not define an API title.") rfl).2
  simpa using h

/-- Claim C10: a parameterized trait reference (a dict entry) whose first
key is declared among the root's trait names is not accepted silently:
after the name check passes, the source subscripts `v.keys()` which raises
`TypeError` under Python 3, aborting validation. -/
theorem C10_parameterized_trait_raises (ts : List (List String))
    (names : List String) (path : String) (k : String) (kb : List String)
    (rest : List TraitRef) (hts : ts.isEmpty = false)
    (hnames : traitNames ts = Except.ok names) (hk : names.contains k = true) :
    assigned_traits (some ts) path (.dict (k :: kb) :: rest) =
      Except.error PyError.typeError := by
  unfold assigned_traits
  simp only [List.isEmpty_cons, Option.getD_some, hts, hnames, Bool.false_eq_true,
    if_false, if_neg]
  have hk' : k ∈ names := by simpa using hk
  simp [assigned_traits_loop, hk']

/-- Witness for C10: root traits `[{"foo": …}]`, resource assigns the
parameterized reference `{"foo": …}`. -/
theorem C10_parameterized_trait_raises_witness :
    assigned_traits (some [["foo"]]) "/a" [.dict ["foo"]] =
      Except.error PyError.typeError :=
  C10_parameterized_trait_raises [["foo"]] ["foo"] "/a" "foo" [] [] rfl rfl (by decide)
